import Mathlib

/-
Verification of the cache-with-stale-fallback layer and the risk-metrics
engine of app.py (Flask backend serving brokerage portfolio data).

Shallow embedding conventions:
* JSON values (what json.dump / json.load move between the cache file and
  the program) are modelled by the inductive type `J`.
* The cache layer (`_fetch_and_cache`, lines 56-66, and
  `_get_cached_or_fetch`, lines 68-84) only ever touches the single file
  `CACHE_DIR/{cache_key}.json`, so the relevant filesystem state for one
  call is `Option CacheFile`: `none` when the file does not exist,
  `some f` with the file's modification time and JSON content otherwise.
  Timestamps are integers (seconds); `datetime.now() - getmtime < timedelta(86400)`
  becomes `now - mtime < 86400` over ℤ.
* The zero-argument fetch operation is an external collaborator invoked at
  most once per call; its predetermined outcome is passed in as
  `Except PyErr J`.
* The write `with open(cache_path, 'w') as f: json.dump(data, f)` has two
  failure stages, both modelled (`WriteOutcome`): `open(..., 'w')` itself
  can raise, leaving the file untouched; or the open succeeds — truncating
  any existing file and refreshing its modification time (and creating the
  file when none existed) — and `json.dump` then raises, leaving whatever
  partial text reached the file.  A cache file therefore holds `FileData`:
  a parsed JSON document, or the truncated partial text of an interrupted
  dump.  `json.load` (`jsonLoad`) returns the document of a parseable file
  and raises a decode error on truncated content (a proper prefix of the
  serialized payload is not a valid JSON document).
* Python exceptions are `PyErr`; app.py defines no exception classes of
  its own (in particular no StorageError), so only the raw error kinds
  exist: a fetch error, an I/O error, and json.load's decode error.
-/

namespace Alpaca

/-- JSON values as moved by json.dump / json.load. -/
inductive J where
  | null : J
  | bool : Bool → J
  | num : ℚ → J
  | str : String → J
  | arr : List J → J
  | obj : List (String × J) → J

/-- What a cache file can hold: a parseable JSON document, or the
truncated partial text left behind when json.dump raised after
`open(cache_path, 'w')` had already truncated the file. -/
inductive FileData where
  | json : J → FileData
  | corrupt : String → FileData

/-- The cache file for one key: its filesystem modification time (set by
the write at lines 61-62) and its content. -/
structure CacheFile where
  mtime : ℤ
  content : FileData

/-- Python exceptions that can cross the cache layer: an upstream fetch
failure, an I/O failure from the cache file write, or the
JSONDecodeError json.load raises on truncated content.  app.py defines
no exception classes of its own. -/
inductive PyErr where
  | fetchErr : String → PyErr
  | ioErr : String → PyErr
  | decodeErr : PyErr
  deriving DecidableEq

/-- How the write at lines 61-62 goes: both open and json.dump succeed;
`open(cache_path, 'w')` itself raises, leaving the file untouched; or the
open succeeds (truncating the file and refreshing its mtime, creating it
if absent) and json.dump then raises, leaving the partial text that
reached the file. -/
inductive WriteOutcome where
  | ok : WriteOutcome
  | openFail : PyErr → WriteOutcome
  | dumpFail : PyErr → String → WriteOutcome

/-- json.load of a cache file's content: the document when it parses, a
JSONDecodeError on the truncated text of an interrupted dump. -/
def jsonLoad : FileData → Except PyErr J
  | .json d => .ok d
  | .corrupt _ => .error PyErr.decodeErr

/-- Outcome of one `_get_cached_or_fetch` call: the Python return value (or
the uncaught exception), the cache file state after the call, and whether
`fetch_function()` was evaluated during the call. -/
structure CallResult where
  ret : Except PyErr J
  state : Option CacheFile
  fetchCalled : Bool

/-- CACHE_DURATION_SECONDS = 86400 (line 17). -/
def CACHE_DURATION_SECONDS : ℤ := 86400

/-- Line 72: `datetime.now() - file_mod_time < timedelta(seconds=CACHE_DURATION_SECONDS)`. -/
def isFreshB (now : ℤ) (f : CacheFile) : Bool :=
  decide (now - f.mtime < CACHE_DURATION_SECONDS)

/-- `_fetch_and_cache` (lines 56-66): evaluate the fetch operation; on
success open the cache file for writing and `json.dump(data, f)` into it;
any exception (from the fetch, the open or the dump) is re-raised
(`except Exception as e: ... raise e`).  A fetch error precedes the open,
so the file is untouched; an open error leaves it untouched too; a dump
error strikes after the truncating open, leaving the partial text with a
refreshed mtime.  Returns the Python result with the file state after the
call. -/
def fetchAndCache (st : Option CacheFile) (now : ℤ)
    (fetchOutcome : Except PyErr J) (w : WriteOutcome) :
    Except PyErr J × Option CacheFile :=
  match fetchOutcome with
  | .error e => (.error e, st)
  | .ok d =>
    match w with
    | .ok => (.ok d, some ⟨now, .json d⟩)
    | .openFail e => (.error e, st)
    | .dumpFail e residue => (.error e, some ⟨now, .corrupt residue⟩)

/-- The dict returned at line 84 when the fetch failed and no fallback is
served: `{"error": f"Failed to fetch data for {cache_key} and no cache was available."}`. -/
def errorSentinel (key : String) : J :=
  .obj [("error", .str ("Failed to fetch data for " ++ key ++
    " and no cache was available."))]

/-- Lines 76-84 of `_get_cached_or_fetch`: the try/except around
`_fetch_and_cache`.  On any exception, if `fallback` is set and the cache
file exists at that moment (line 80 re-checks the path — after an
interrupted dump the truncated file exists even when none did before),
the file is json.load-ed inside the except handler, so a decode error
from truncated content propagates to the caller; otherwise the error
sentinel dict is returned.  The fetch operation has been invoked by the
time this code runs. -/
def afterMiss (key : String) (st : Option CacheFile) (now : ℤ)
    (fetchOutcome : Except PyErr J) (w : WriteOutcome)
    (fallback : Bool) : CallResult :=
  match fetchAndCache st now fetchOutcome w with
  | (.ok d, st2) => ⟨.ok d, st2, true⟩
  | (.error _, st2) =>
    match fallback, st2 with
    | true, some f => ⟨jsonLoad f.content, some f, true⟩
    | _, _ => ⟨.ok (errorSentinel key), st2, true⟩

/-- `_get_cached_or_fetch` (lines 68-84).  If the cache file exists and is
fresh per the file's modification time, json.load of it is returned (a
decode error on a corrupt file would propagate: lines 73-75 are outside
the try) and the fetch operation is never evaluated; otherwise the
fetch-and-cache path runs under the try/except of `afterMiss`. -/
def getOrFetch (key : String) (st : Option CacheFile) (now : ℤ)
    (fetchOutcome : Except PyErr J) (w : WriteOutcome)
    (fallback : Bool) : CallResult :=
  match st with
  | some f =>
    if isFreshB now f then ⟨jsonLoad f.content, some f, false⟩
    else afterMiss key (some f) now fetchOutcome w fallback
  | none => afterMiss key none now fetchOutcome w fallback

/-- Does a JSON value have the two-field shape
`{"timestamp": ISO-8601 string, "data": ...}`? -/
def isTimestampDataShape : J → Bool
  | .obj (("timestamp", .str _) :: ("data", _) :: []) => true
  | _ => false

/-- C1: for every key, TTL state and fetch operation, if a cache entry
exists whose age `now - mtime` is strictly below CACHE_DURATION_SECONDS,
`_get_cached_or_fetch` returns the entry's stored payload and the fetch
operation is never invoked during the call. -/
theorem C1_fresh_hit (key : String) (p : J) (mt now : ℤ)
    (fo : Except PyErr J) (w : WriteOutcome) (fb : Bool)
    (hfresh : now - mt < CACHE_DURATION_SECONDS) :
    (getOrFetch key (some ⟨mt, .json p⟩) now fo w fb).ret = .ok p ∧
    (getOrFetch key (some ⟨mt, .json p⟩) now fo w fb).fetchCalled = false := by
  simp [getOrFetch, isFreshB, hfresh, jsonLoad]

/-- Witness for C1 at a concrete fresh entry: mtime 0, call at time 1,
stored payload 7, a fetch operation that would fail. -/
theorem C1_fresh_hit_witness :
    ((1 : ℤ) - 0 < CACHE_DURATION_SECONDS) ∧
    ((getOrFetch "k" (some ⟨0, .json (J.num 7)⟩) 1
        (.error (PyErr.fetchErr "boom")) .ok true).ret = .ok (J.num 7) ∧
     (getOrFetch "k" (some ⟨0, .json (J.num 7)⟩) 1
        (.error (PyErr.fetchErr "boom")) .ok true).fetchCalled = false) :=
  ⟨by decide,
   C1_fresh_hit "k" (J.num 7) 0 1 (.error (PyErr.fetchErr "boom")) .ok true
     (by decide)⟩

/-- C2 counterexample: a successful miss-path call with payload the JSON
number 5 writes a cache file whose content is exactly the document `5` —
not an object of the shape `{"timestamp": ISO-8601 string, "data": ...}`
as the claim states (`json.dump(data, f)` at line 62 writes the payload
verbatim). -/
theorem C2_counterexample :
    (getOrFetch "k" none 0 (.ok (J.num 5)) .ok true).state =
      some ⟨0, .json (J.num 5)⟩ ∧
    isTimestampDataShape (J.num 5) = false :=
  ⟨rfl, rfl⟩

/-- C2 amended: a cache file written for a key holds the fetched payload
itself, verbatim and unwrapped, and freshness of an entry is decided by
comparing the file's modification time to the current time against the
fixed 86,400-second TTL: on a miss with no file the successful path
stores exactly the payload with mtime `now`; on a stale file it likewise
overwrites it with exactly the payload; and the fetch operation is
skipped precisely when `now - mtime < 86400`. -/
theorem C2_raw_payload_mtime_freshness (key : String) (f : CacheFile)
    (c0 : FileData) (now : ℤ) (d : J) (w : WriteOutcome) (fb : Bool) :
    (getOrFetch key none now (.ok d) .ok fb).state =
      some ⟨now, .json d⟩ ∧
    (getOrFetch key (some ⟨now - 100000, c0⟩) now (.ok d) .ok fb).state =
      some ⟨now, .json d⟩ ∧
    ((getOrFetch key (some f) now (.ok d) w fb).fetchCalled = false ↔
      now - f.mtime < CACHE_DURATION_SECONDS) := by
  refine ⟨rfl, ?_, ?_⟩
  · norm_num [getOrFetch, isFreshB, afterMiss, fetchAndCache,
      CACHE_DURATION_SECONDS]
  · by_cases h : now - f.mtime < CACHE_DURATION_SECONDS
    · simp [getOrFetch, isFreshB, h]
    · cases w <;> cases fb <;>
        simp [getOrFetch, isFreshB, h, afterMiss, fetchAndCache]

/-- C3 counterexample: with an intact stale entry (payload 1, mtime 0,
call at time 100000), a successful fetch of payload 2 and a cache write
whose `open(cache_path, 'w')` raises an I/O error (permission denied —
the file is untouched at that stage), the call returns the ordinary
stale payload 1: the storage error is caught inside the layer and
converted into the fallback result, and no error of any kind reaches the
caller, contradicting the claim that storage I/O errors propagate as a
distinct StorageError and are never converted into a fallback result. -/
theorem C3_counterexample :
    (getOrFetch "k" (some ⟨0, .json (J.num 1)⟩) 100000 (.ok (J.num 2))
        (.openFail (PyErr.ioErr "permission denied")) true).ret =
      .ok (J.num 1) ∧
    (getOrFetch "k" (some ⟨0, .json (J.num 1)⟩) 100000 (.ok (J.num 2))
        (.openFail (PyErr.ioErr "permission denied")) true).ret ≠
      .error (PyErr.ioErr "permission denied") :=
  ⟨rfl, fun h => Except.noConfusion h⟩

/-- C3 amended: app.py defines no StorageError type, and a cache-write
I/O error is never surfaced as one.  An error from `open(cache_path,
'w')` itself leaves the file unchanged; `_fetch_and_cache` re-raises it
but the bare `except Exception` of `_get_cached_or_fetch` catches it
like a fetch failure, answering json.load of the existing file (the
stale payload when the entry is intact) when fallback is allowed and an
entry exists, else the error sentinel dict — the open error never
reaches the caller.  An error from `json.dump` strikes after the open
truncated the file: the file is left holding the partial text with
refreshed mtime, and with fallback on the handler's own json.load of
that truncated file raises a decode error to the caller (the file now
exists even if it did not before); with fallback off the sentinel dict
is returned. -/
theorem C3_write_error_swallowed (key : String) (st : Option CacheFile)
    (now : ℤ) (d : J) (e : PyErr) (residue : String) (fb : Bool)
    (hstale : ∀ f, st = some f →
      ¬ (now - f.mtime < CACHE_DURATION_SECONDS)) :
    ((getOrFetch key st now (.ok d) (.openFail e) fb).ret =
      (match fb, st with
       | true, some f => jsonLoad f.content
       | _, _ => .ok (errorSentinel key)) ∧
     (getOrFetch key st now (.ok d) (.openFail e) fb).state = st) ∧
    ((getOrFetch key st now (.ok d) (.dumpFail e residue) fb).ret =
      (if fb then .error PyErr.decodeErr else .ok (errorSentinel key)) ∧
     (getOrFetch key st now (.ok d) (.dumpFail e residue) fb).state =
       some ⟨now, .corrupt residue⟩) := by
  cases st with
  | none =>
    cases fb <;> simp [getOrFetch, afterMiss, fetchAndCache, jsonLoad]
  | some f =>
    have h := hstale f rfl
    cases fb <;>
      simp [getOrFetch, isFreshB, h, afterMiss, fetchAndCache, jsonLoad]

/-- Witness for C3 amended at the concrete stale intact entry of the
counterexample: an open-stage error is swallowed into the stale payload
1, and a dump-stage error surfaces as the decode error of the fallback
json.load on the truncated file. -/
theorem C3_write_error_swallowed_witness :
    (¬ ((100000 : ℤ) - 0 < CACHE_DURATION_SECONDS)) ∧
    (getOrFetch "k" (some ⟨0, .json (J.num 1)⟩) 100000 (.ok (J.num 2))
        (.openFail (PyErr.ioErr "permission denied")) true).ret =
      .ok (J.num 1) ∧
    (getOrFetch "k" (some ⟨0, .json (J.num 1)⟩) 100000 (.ok (J.num 2))
        (.dumpFail (PyErr.ioErr "disk full") "trunc") true).ret =
      .error PyErr.decodeErr := by
  refine ⟨by decide, ?_, ?_⟩
  · exact (C3_write_error_swallowed "k" (some ⟨0, .json (J.num 1)⟩) 100000
      (J.num 2) (PyErr.ioErr "permission denied") "trunc" true
      (fun f hf => by cases hf; decide)).1.1
  · exact (C3_write_error_swallowed "k" (some ⟨0, .json (J.num 1)⟩) 100000
      (J.num 2) (PyErr.ioErr "disk full") "trunc" true
      (fun f hf => by cases hf; decide)).2.1

/-- C4: if the fetch operation fails, fallback is allowed and a cache
entry exists for the key (fresh or not), `_get_cached_or_fetch` returns
exactly the stored entry's payload.  A fetch failure precedes the write,
so the stored file is read intact in both the fresh and the stale
branch. -/
theorem C4_stale_fallback (key : String) (p : J) (mt now : ℤ)
    (e : PyErr) (w : WriteOutcome) :
    (getOrFetch key (some ⟨mt, .json p⟩) now (.error e) w true).ret =
      .ok p := by
  by_cases h : now - mt < CACHE_DURATION_SECONDS <;>
    simp [getOrFetch, isFreshB, h, afterMiss, fetchAndCache, jsonLoad]

/-- C5 counterexample: when no cache entry exists, two calls whose fetch
operations fail with two different underlying errors return identical
results — so the result cannot carry the underlying fetch error, contrary
to the claim. -/
theorem C5_counterexample :
    getOrFetch "k" none 0 (.error (PyErr.fetchErr "boom")) .ok true =
      getOrFetch "k" none 0 (.error (PyErr.fetchErr "other")) .ok true ∧
    PyErr.fetchErr "boom" ≠ PyErr.fetchErr "other" :=
  ⟨rfl, by decide⟩

/-- C5 amended: if the fetch operation fails and no cache entry exists,
the call returns the fixed error object
`{"error": "Failed to fetch data for <key> and no cache was available."}`
— it signals the no-data condition and names the key, but is independent
of (does not carry) the underlying fetch error. -/
theorem C5_no_entry_sentinel (key : String) (now : ℤ) (e : PyErr)
    (w : WriteOutcome) (fb : Bool) :
    (getOrFetch key none now (.error e) w fb).ret =
      .ok (errorSentinel key) := by
  cases fb <;> simp [getOrFetch, afterMiss, fetchAndCache]

/-- C10: when the fetch operation raises, the cache file is left exactly
as it was before the call (the open and write at lines 61-62 run only
after `fetch_function()` returned successfully); whatever the outcome,
the file after the call is the original one, the successfully fetched
payload written whole, or the truncated partial text of an interrupted
dump of that payload; and the file can hold the error sentinel document
of line 84 only if it already did before the call or the fetch operation
itself returned that object — the sentinel return value is never
persisted. -/
theorem C10_no_write_on_fetch_failure (key : String) (st : Option CacheFile)
    (now : ℤ) (fo : Except PyErr J) (w : WriteOutcome) (fb : Bool) :
    (∀ e, fo = .error e → (getOrFetch key st now fo w fb).state = st) ∧
    ((getOrFetch key st now fo w fb).state = st ∨
      ∃ d, fo = .ok d ∧
        ((getOrFetch key st now fo w fb).state = some ⟨now, .json d⟩ ∨
         ∃ r, (getOrFetch key st now fo w fb).state =
           some ⟨now, .corrupt r⟩)) ∧
    (∀ f, (getOrFetch key st now fo w fb).state = some f →
      f.content = .json (errorSentinel key) →
      st = some f ∨ fo = .ok (errorSentinel key)) := by
  have h2 : (getOrFetch key st now fo w fb).state = st ∨
      ∃ d, fo = .ok d ∧
        ((getOrFetch key st now fo w fb).state = some ⟨now, .json d⟩ ∨
         ∃ r, (getOrFetch key st now fo w fb).state =
           some ⟨now, .corrupt r⟩) := by
    cases st with
    | none =>
      cases fo with
      | error e =>
        left; cases fb <;> simp [getOrFetch, afterMiss, fetchAndCache]
      | ok d =>
        cases w with
        | ok =>
          right
          exact ⟨d, rfl, Or.inl (by
            cases fb <;> simp [getOrFetch, afterMiss, fetchAndCache])⟩
        | openFail e =>
          left; cases fb <;> simp [getOrFetch, afterMiss, fetchAndCache]
        | dumpFail e r =>
          right
          exact ⟨d, rfl, Or.inr ⟨r, by
            cases fb <;> simp [getOrFetch, afterMiss, fetchAndCache]⟩⟩
    | some f =>
      by_cases h : now - f.mtime < CACHE_DURATION_SECONDS
      · left; simp [getOrFetch, isFreshB, h]
      · cases fo with
        | error e =>
          left
          cases fb <;>
            simp [getOrFetch, isFreshB, h, afterMiss, fetchAndCache]
        | ok d =>
          cases w with
          | ok =>
            right
            exact ⟨d, rfl, Or.inl (by
              cases fb <;>
                simp [getOrFetch, isFreshB, h, afterMiss, fetchAndCache])⟩
          | openFail e =>
            left
            cases fb <;>
              simp [getOrFetch, isFreshB, h, afterMiss, fetchAndCache]
          | dumpFail e r =>
            right
            exact ⟨d, rfl, Or.inr ⟨r, by
              cases fb <;>
                simp [getOrFetch, isFreshB, h, afterMiss, fetchAndCache]⟩⟩
  refine ⟨?_, h2, ?_⟩
  · rintro e rfl
    cases st with
    | none => cases fb <;> simp [getOrFetch, afterMiss, fetchAndCache]
    | some f =>
      by_cases h : now - f.mtime < CACHE_DURATION_SECONDS <;> cases fb <;>
        simp [getOrFetch, isFreshB, h, afterMiss, fetchAndCache]
  · intro f hf hc
    rcases h2 with hst | ⟨d, hd, h1 | ⟨r, h1⟩⟩
    · left; rw [← hst]; exact hf
    · right
      rw [h1] at hf
      have hfe := Option.some.inj hf
      subst hfe
      simp only [] at hc
      injection hc with h3
      rw [hd, h3]
    · rw [h1] at hf
      have hfe := Option.some.inj hf
      subst hfe
      simp at hc

/-- Witness for C10 at a concrete stale entry and failing fetch: the file
is exactly the one present before the call. -/
theorem C10_no_write_on_fetch_failure_witness :
    (getOrFetch "k" (some ⟨0, .json (J.num 3)⟩) 100000
        (.error (PyErr.fetchErr "down")) .ok true).state =
      some ⟨0, .json (J.num 3)⟩ :=
  (C10_no_write_on_fetch_failure "k" (some ⟨0, .json (J.num 3)⟩) 100000
    (.error (PyErr.fetchErr "down")) .ok true).1
    (PyErr.fetchErr "down") rfl

/-
Embedding of `_calculate_advanced_metrics` (lines 87-178).

Conventions:
* Bar timestamps (`pd.to_datetime(bar['t'])`) are integers ℤ, prices and
  returns are exact rationals ℚ.  `positions_data` is the list of
  positions (symbol and market value are the only fields the function
  reads); `bars_data` is an association list from symbol to its bar list.
* The benchmark fetch (lines 119-127) is an external collaborator; its
  resulting `spy_returns` series (empty on failure) is passed in as a
  date-indexed list.
* Floating-point NaN is modelled by `none : Option ℚ`: pandas `std()` of
  a series with fewer than two points is NaN, and NaN propagates through
  arithmetic; Python's `NaN != 0` is `True`, which the embedded guards
  reproduce.  `np.sqrt` is an abstract parameter `sq : ℚ → ℚ`: every
  theorem below holds for all `sq`, and no claim depends on its values.
* ℚ division by zero yields 0 (Lean convention) where Python floats
  would give inf; no claim below evaluates the metrics on inputs with a
  zero price or a zero running peak, so the difference is never
  exercised.
-/

/-- The two fields of positions_data read by `_calculate_advanced_metrics`:
`p['symbol']` and `float(p['market_value'])`. -/
structure Position where
  symbol : String
  market_value : ℚ
  deriving DecidableEq

/-- bars_data: a dict from symbol to its list of (timestamp, close) bars. -/
abbrev Bars := List (String × List (ℤ × ℚ))

/-- `bars_data.get(symbol, [])` (line 96). -/
def barsGet (bars : Bars) (s : String) : List (ℤ × ℚ) :=
  (bars.lookup s).getD []

/-- One column of the dict-of-dicts at lines 95-97:
`{pd.to_datetime(bar['t']): bar['c'] for bar in ...}` — the value at date
`d`, with a duplicate date keeping the last bar (dict semantics). -/
def colMap (h : List (ℤ × ℚ)) (d : ℤ) : Option ℚ :=
  ((h.filter (fun b => decide (b.1 = d))).getLast?).map Prod.snd

/-- The observation dates of a history. -/
def datesOf (h : List (ℤ × ℚ)) : List ℤ :=
  h.map Prod.fst

/-- Python dict key order: first occurrence wins, later duplicates are
dropped (the dict comprehension at lines 95-97 keyed by position symbol). -/
def dedupFirst {α : Type} [BEq α] (l : List α) : List α :=
  l.foldl (fun acc x => if acc.contains x then acc else acc ++ [x]) []

/-- The column labels of the raw price DataFrame: the position symbols in
order, deduplicated. -/
def symbolsOf (positions : List Position) : List String :=
  dedupFirst (positions.map Position.symbol)

/-- Insert into a sorted list, keeping it sorted ascending. -/
def insertSorted {α : Type} [LinearOrder α] (d : α) : List α → List α
  | [] => [d]
  | x :: xs => if d ≤ x then d :: x :: xs else x :: insertSorted d xs

/-- Sort ascending (the pandas index is kept sorted). -/
def sortAsc {α : Type} [LinearOrder α] (l : List α) : List α :=
  l.foldr insertSorted []

/-- The DataFrame index: the sorted union of all observed dates across the
position symbols (duplicates removed). -/
def allDates (positions : List Position) (bars : Bars) : List ℤ :=
  sortAsc (((symbolsOf positions).map
    (fun s => datesOf (barsGet bars s))).flatten).dedup

/-- The columns surviving `dropna(axis=1, how='all')` (line 101): a column
is all-NaN exactly when its symbol has no bars at all (every observation
date of a symbol is in the index, so one bar suffices for a non-null
cell). -/
def keptSymbols (positions : List Position) (bars : Bars) : List String :=
  (symbolsOf positions).filter (fun s => !(barsGet bars s).isEmpty)

/-- The cell of the forward-filled matrix (`.ffill()`, line 98) for a
history at index date `d`: the close at the greatest observation date that
is at most `d`, or NaN (`none`) before the first observation.  The index
contains every observation date, so this agrees with pandas positional
forward fill. -/
def ffillAt (h : List (ℤ × ℚ)) (d : ℤ) : Option ℚ :=
  match (datesOf h).filter (fun t => decide (t ≤ d)) with
  | [] => none
  | t :: ts => colMap h (ts.foldl max t)

/-- One cell of `portfolio_prices.pct_change()` (line 107) for the pair of
consecutive index dates `dPrev, dCur`: NaN unless both filled prices
exist. -/
def retCell (h : List (ℤ × ℚ)) (dPrev dCur : ℤ) : Option ℚ :=
  match ffillAt h dPrev, ffillAt h dCur with
  | some a, some b => some (b / a - 1)
  | _, _ => none

/-- Consecutive pairs of the index (pct_change looks one row back; the
first row is dropped). -/
def consecPairs : List ℤ → List (ℤ × ℤ)
  | d1 :: d2 :: ds => (d1, d2) :: consecPairs (d2 :: ds)
  | _ => []

/-- `returns = portfolio_prices.pct_change().dropna()` (line 107): rows of
per-kept-symbol daily returns, labelled by the current date, keeping only
rows where every kept column has a value (`dropna` drops rows with any
NaN). -/
def returnRows (positions : List Position) (bars : Bars) :
    List (ℤ × List ℚ) :=
  (consecPairs (allDates positions bars)).filterMap fun pr =>
    let cells := (keptSymbols positions bars).map
      (fun s => retCell (barsGet bars s) pr.1 pr.2)
    if cells.all Option.isSome then
      some (pr.2, cells.map (fun c => c.getD 0))
    else none

/-- `market_values` (line 110) is a dict keyed by symbol, so a duplicated
position symbol keeps the last market value. -/
def mvOf (positions : List Position) (s : String) : ℚ :=
  match (positions.filter (fun p => p.symbol == s)).getLast? with
  | some p => p.market_value
  | none => 0

/-- `total_market_value = market_values.sum()` (line 111): the sum of the
market values over the distinct symbols that survived the column drop. -/
def totalMarketValue (positions : List Position) (bars : Bars) : ℚ :=
  ((keptSymbols positions bars).map (mvOf positions)).sum

/-- `weights = market_values / total_market_value` (line 114). -/
def weightOf (positions : List Position) (bars : Bars) (s : String) : ℚ :=
  mvOf positions s / totalMarketValue positions bars

/-- `portfolio_returns = (returns * weights).sum(axis=1)` (line 117): the
weight-dot-product of each return row. -/
def portfolioReturns (positions : List Position) (bars : Bars) :
    List (ℤ × ℚ) :=
  (returnRows positions bars).map fun r =>
    (r.1, (((keptSymbols positions bars).zip r.2).map
      (fun q => weightOf positions bars q.1 * q.2)).sum)

/-- `portfolio_returns.align(spy_returns, join='inner')` (line 130): the
dates present in both series, in portfolio (sorted) order, paired as
(portfolio return, benchmark return). -/
def alignedPairs (positions : List Position) (bars : Bars)
    (spy : List (ℤ × ℚ)) : List (ℚ × ℚ) :=
  (portfolioReturns positions bars).filterMap fun pr =>
    match spy.lookup pr.1 with
    | some sv => some (pr.2, sv)
    | none => none

/-- `risk_free_rate = 0.05 / 252` (line 136). -/
def riskFreeRate : ℚ := 5 / 100 / 252

/-- Mean of a series; only applied to nonempty series in the code paths
below (pandas mean of an empty series would be NaN). -/
def qmean (xs : List ℚ) : ℚ :=
  xs.sum / (xs.length : ℚ)

/-- Sample variance, ddof=1 (pandas default): NaN for fewer than two
points. -/
def qvarO (xs : List ℚ) : Option ℚ :=
  if xs.length < 2 then none
  else some ((xs.map (fun x => (x - qmean xs) ^ 2)).sum /
    ((xs.length : ℚ) - 1))

/-- Sample standard deviation: `sq` of the variance, NaN for fewer than
two points. -/
def qstdO (sq : ℚ → ℚ) (xs : List ℚ) : Option ℚ :=
  (qvarO xs).map sq

/-- Sample covariance of two equally long series, ddof=1: NaN for fewer
than two points. -/
def qcovO (xs ys : List ℚ) : Option ℚ :=
  if xs.length < 2 then none
  else some (((xs.zip ys).map
    (fun p => (p.1 - qmean xs) * (p.2 - qmean ys))).sum /
    ((xs.length : ℚ) - 1))

/-- NaN-propagating multiplication. -/
def oMul (a b : Option ℚ) : Option ℚ :=
  match a, b with
  | some x, some y => some (x * y)
  | _, _ => none

/-- Sharpe ratio (line 139):
`(mean - rf) / std * sqrt(252) if std != 0 else 0`; a NaN std (impossible
here, the series has at least two points) would propagate. -/
def sharpeRatio (sq : ℚ → ℚ) (r : List ℚ) : Option ℚ :=
  match qstdO sq r with
  | none => none
  | some s => if s ≠ 0 then some ((qmean r - riskFreeRate) / s * sq 252)
              else some 0

/-- Sortino ratio (lines 142-144):
`downside_std = aligned_returns[aligned_returns < 0].std()`, then
`(mean - rf) / downside_std * sqrt(252) if downside_std != 0 else 0`.
When the downside series has fewer than two points its std is NaN, the
Python guard `NaN != 0` is True, and the division yields NaN (`none`). -/
def sortinoRatio (sq : ℚ → ℚ) (r : List ℚ) : Option ℚ :=
  match qstdO sq (r.filter (fun x => decide (x < 0))) with
  | none => none
  | some s => if s ≠ 0 then some ((qmean r - riskFreeRate) / s * sq 252)
              else some 0

/-- Alpha and beta (lines 146-154): both 0 unless the benchmark series is
nonempty with more than one point; beta = cov / var with the `var != 0`
guard, alpha = daily alpha times 252, NaN-propagating. -/
def betaAlpha (r b : List ℚ) : Option ℚ × Option ℚ :=
  if b ≠ [] ∧ b.length > 1 then
    let cov := qcovO r b
    let bvar := qvarO b
    let beta : Option ℚ :=
      match bvar with
      | none => none
      | some v =>
        if v ≠ 0 then
          match cov with
          | none => none
          | some c => some (c / v)
        else some 0
    let alpha : Option ℚ :=
      match beta with
      | none => none
      | some bv => some (((qmean r - riskFreeRate) -
          bv * (qmean b - riskFreeRate)) * 252)
    (beta, alpha)
  else (some 0, some 0)

/-- `(1 + aligned_returns).cumprod()` (line 160). -/
def cumprod1p : List ℚ → ℚ → List ℚ
  | [], _ => []
  | x :: xs, acc => (acc * (1 + x)) :: cumprod1p xs (acc * (1 + x))

/-- `cumulative_returns.expanding(min_periods=1).max()` (line 161). -/
def runmax : List ℚ → ℚ → List ℚ
  | [], _ => []
  | x :: xs, m => max m x :: runmax xs (max m x)

/-- `drawdown = (cumulative_returns - peak) / peak` (line 162). -/
def drawdownSeries (r : List ℚ) : List ℚ :=
  let cum := cumprod1p r 1
  let peaks :=
    match cum with
    | [] => []
    | c :: _ => runmax cum c
  (cum.zip peaks).map (fun p => (p.1 - p.2) / p.2)

/-- Minimum of a series (line 163); only applied to nonempty series. -/
def listMin : List ℚ → ℚ
  | [] => 0
  | x :: xs => xs.foldl min x

/-- `aligned_returns.quantile(0.05)` (line 167), pandas default linear
interpolation between order statistics. -/
def quantile05 (r : List ℚ) : ℚ :=
  let s := sortAsc r
  let h : ℚ := 5 / 100 * ((s.length : ℚ) - 1)
  let i : ℕ := Int.toNat ⌊h⌋
  let lo := s.getD i 0
  let hi := s.getD (i + 1) 0
  lo + (h - (i : ℚ)) * (hi - lo)

/-- Python `round(x, nd)`: round half to even at `nd` decimal places; NaN
rounds to NaN. -/
def pyRound (nd : ℕ) : Option ℚ → Option ℚ :=
  Option.map fun x =>
    let y := x * 10 ^ nd
    let f := ⌊y⌋
    let r := y - f
    let z : ℤ :=
      if r < 1 / 2 then f
      else if 1 / 2 < r then f + 1
      else if f % 2 = 0 then f else f + 1
    (z : ℚ) / 10 ^ nd

/-- The eight keys of the dict returned at lines 169-178, in order. -/
def metricKeys : List String :=
  ["sharpe_ratio", "sortino_ratio", "alpha_annualized", "beta",
   "volatility_annualized", "max_drawdown", "current_drawdown",
   "var_95_historical"]

/-- `_calculate_advanced_metrics` (lines 87-178), with `np.sqrt` abstract
as `sq` and the benchmark return series passed in.  Returns the Python
dict as an ordered key/value list: `[]` is the empty dict `{}` of the
insufficient-data returns (lines 92, 104, 112, 133), and metric values
are `Option ℚ` with `none` for NaN. -/
def calculateAdvancedMetrics (sq : ℚ → ℚ) (positions : List Position)
    (bars : Bars) (spy : List (ℤ × ℚ)) : List (String × Option ℚ) :=
  if positions = [] ∨ bars = [] then []
  else if keptSymbols positions bars = [] ∨ allDates positions bars = []
    then []
  else if totalMarketValue positions bars = 0 then []
  else if alignedPairs positions bars spy = [] ∨
      (alignedPairs positions bars spy).length < 2 then []
  else
      let r := (alignedPairs positions bars spy).map Prod.fst
      let b := (alignedPairs positions bars spy).map Prod.snd
      let ba := betaAlpha r b
      let dd := drawdownSeries r
      [("sharpe_ratio", pyRound 3 (sharpeRatio sq r)),
       ("sortino_ratio", pyRound 3 (sortinoRatio sq r)),
       ("alpha_annualized", pyRound 4 ba.2),
       ("beta", pyRound 3 ba.1),
       ("volatility_annualized", pyRound 4 (oMul (qstdO sq r) (some (sq 252)))),
       ("max_drawdown", pyRound 4 (some (listMin dd))),
       ("current_drawdown", pyRound 4 (some (dd.getLast?.getD 0))),
       ("var_95_historical", pyRound 4 (some (quantile05 r)))]

/-- Membership in an insertion-sorted insert. -/
theorem mem_insertSorted {α : Type} [LinearOrder α] (a d : α) (l : List α) :
    a ∈ insertSorted d l ↔ a = d ∨ a ∈ l := by
  induction l with
  | nil => simp [insertSorted]
  | cons x xs ih =>
    by_cases h : d ≤ x
    · simp [insertSorted, h]
    · simp [insertSorted, h, ih]
      tauto

/-- Sorting preserves membership. -/
theorem mem_sortAsc {α : Type} [LinearOrder α] (a : α) (l : List α) :
    a ∈ sortAsc l ↔ a ∈ l := by
  induction l with
  | nil => simp [sortAsc]
  | cons x xs ih => simp [sortAsc, mem_insertSorted] at ih ⊢; rw [ih]

/-- The running maximum of a list is one of its elements. -/
theorem foldl_max_mem (t : ℤ) (ts : List ℤ) : ts.foldl max t ∈ t :: ts := by
  induction ts generalizing t with
  | nil => simp
  | cons x xs ih =>
    have h := ih (max t x)
    rcases List.mem_cons.mp h with h1 | h1
    · rcases max_choice t x with h2 | h2
      · exact List.mem_cons.mpr (Or.inl (h1.trans h2))
      · simp [h1.trans h2]
    · simp [h1]

/-- A raw column has a value at each of its observation dates. -/
theorem colMap_isSome_of_mem (h : List (ℤ × ℚ)) (t : ℤ)
    (ht : t ∈ datesOf h) : (colMap h t).isSome := by
  simp only [datesOf, List.mem_map] at ht
  obtain ⟨q, hq, hq1⟩ := ht
  have hmem : q ∈ h.filter (fun b => decide (b.1 = t)) :=
    List.mem_filter.mpr ⟨hq, by simp [hq1]⟩
  have hne := List.ne_nil_of_mem hmem
  unfold colMap
  cases hgl : (h.filter (fun b => decide (b.1 = t))).getLast? with
  | none => exact absurd (List.getLast?_eq_none_iff.mp hgl) hne
  | some p => simp [hgl]

/-- After forward-fill a column has a value at every date on or after one
of its observation dates. -/
theorem ffillAt_isSome_of_mem (h : List (ℤ × ℚ)) (d0 d : ℤ)
    (h0 : d0 ∈ datesOf h) (hle : d0 ≤ d) : (ffillAt h d).isSome := by
  have hmem : d0 ∈ (datesOf h).filter (fun t => decide (t ≤ d)) :=
    List.mem_filter.mpr ⟨h0, by simp [hle]⟩
  unfold ffillAt
  cases hf : (datesOf h).filter (fun t => decide (t ≤ d)) with
  | nil => rw [hf] at hmem; cases hmem
  | cons t ts =>
    have hmax : ts.foldl max t ∈ t :: ts := foldl_max_mem t ts
    have hmem2 : ts.foldl max t ∈ datesOf h := by
      have hx : ts.foldl max t ∈
          (datesOf h).filter (fun t => decide (t ≤ d)) := by
        rw [hf]; exact hmax
      exact (List.mem_filter.mp hx).1
    exact colMap_isSome_of_mem h _ hmem2

/-- The matrix index is exactly the union of the observed dates of the
position symbols. -/
theorem mem_allDates (positions : List Position) (bars : Bars) (d : ℤ) :
    d ∈ allDates positions bars ↔
      ∃ s ∈ symbolsOf positions, d ∈ datesOf (barsGet bars s) := by
  simp [allDates, mem_sortAsc]

/-- Deduplication of three pairwise distinct keys keeps all three in
order. -/
theorem dedupFirst_triple {α : Type} [BEq α] [LawfulBEq α] (a b c : α)
    (hab : a ≠ b) (hac : a ≠ c) (hbc : b ≠ c) :
    dedupFirst [a, b, c] = [a, b, c] := by
  simp [dedupFirst, Ne.symm hab, Ne.symm hac, Ne.symm hbc]

/-- C6: on a portfolio whose two aligned daily returns are 1 and 2 (no
negative returns), the code's sortino_ratio is NaN (modelled `none`), not
0 as the claim states: pandas std of the empty downside series is NaN,
the Python guard `downside_std != 0` is True for NaN, and the division
propagates the NaN into the returned dict.  Both the full pipeline value
and the sortino computation itself are evaluated at the failing input. -/
theorem C6_sortino_nan_on_no_negatives :
    (calculateAdvancedMetrics (fun x => x) [⟨"A", 1⟩]
      [("A", [(0, 1), (1, 2), (2, 6)])]
      [(1, 5), (2, 7)]).lookup "sortino_ratio" = some none ∧
    sortinoRatio (fun x => x) [1, 2] = none := by
  have hs : sortinoRatio (fun x => x) [1, 2] = none := by
    norm_num [sortinoRatio, qstdO, qvarO]
  refine ⟨?_, hs⟩
  have h1 : keptSymbols [⟨"A", 1⟩] [("A", [(0, 1), (1, 2), (2, 6)])] =
      ["A"] := by decide
  have h2 : allDates [⟨"A", 1⟩] [("A", [(0, 1), (1, 2), (2, 6)])] =
      [0, 1, 2] := by decide
  have hbg : barsGet [("A", [(0, 1), (1, 2), (2, 6)])] "A" =
      [(0, 1), (1, 2), (2, 6)] := rfl
  have h4a : retCell [((0 : ℤ), (1 : ℚ)), (1, 2), (2, 6)] 0 1 = some 1 := by
    norm_num [retCell, ffillAt, colMap, datesOf]
  have h4b : retCell [((0 : ℤ), (1 : ℚ)), (1, 2), (2, 6)] 1 2 = some 2 := by
    norm_num [retCell, ffillAt, colMap, datesOf]
  have h5 : returnRows [⟨"A", 1⟩] [("A", [(0, 1), (1, 2), (2, 6)])] =
      [(1, [1]), (2, [2])] := by
    simp [returnRows, h1, h2, hbg, consecPairs, h4a, h4b]
  have hw : weightOf [⟨"A", 1⟩] [("A", [(0, 1), (1, 2), (2, 6)])] "A" = 1 := by
    norm_num [weightOf, mvOf, totalMarketValue, h1]
  have ht : totalMarketValue [⟨"A", 1⟩] [("A", [(0, 1), (1, 2), (2, 6)])] =
      1 := by
    norm_num [totalMarketValue, mvOf, h1]
  have h6 : portfolioReturns [⟨"A", 1⟩] [("A", [(0, 1), (1, 2), (2, 6)])] =
      [(1, 1), (2, 2)] := by
    simp [portfolioReturns, h5, h1, hw]
  have h7 : alignedPairs [⟨"A", 1⟩] [("A", [(0, 1), (1, 2), (2, 6)])]
      [(1, 5), (2, 7)] = [(1, 5), (2, 7)] := by
    simp [alignedPairs, h6, List.lookup]
  rw [calculateAdvancedMetrics]
  rw [if_neg (by simp), if_neg (by simp [h1, h2]), if_neg (by simp [ht]),
    if_neg (by simp [h7])]
  simp [h7, List.lookup, pyRound, hs]

/-- C7: whenever the market values of the positions with usable history
sum to zero, the metrics computation returns the empty dict; the division
by the total (the weights of line 114) is performed only in the branch
where the total is nonzero, so no division by the zero total occurs. -/
theorem C7_zero_total_mv_empty (sq : ℚ → ℚ) (positions : List Position)
    (bars : Bars) (spy : List (ℤ × ℚ))
    (h : totalMarketValue positions bars = 0) :
    calculateAdvancedMetrics sq positions bars spy = [] := by
  unfold calculateAdvancedMetrics
  split_ifs <;> rfl

/-- Witness for C7 at two offsetting positions (+1 and -1) that both have
usable history: the total is zero and the result is the empty dict. -/
theorem C7_zero_total_mv_empty_witness :
    totalMarketValue [⟨"A", 1⟩, ⟨"B", -1⟩]
      [("A", [(0, 1)]), ("B", [(0, 2)])] = 0 ∧
    calculateAdvancedMetrics (fun x => x) [⟨"A", 1⟩, ⟨"B", -1⟩]
      [("A", [(0, 1)]), ("B", [(0, 2)])] [] = [] := by
  have h : totalMarketValue [⟨"A", 1⟩, ⟨"B", -1⟩]
      [("A", [(0, 1)]), ("B", [(0, 2)])] = 0 := by
    have hk : keptSymbols [⟨"A", 1⟩, ⟨"B", -1⟩]
        [("A", [(0, 1)]), ("B", [(0, 2)])] = ["A", "B"] := by decide
    have ha : mvOf [⟨"A", 1⟩, ⟨"B", -1⟩] "A" = 1 := by decide
    have hb : mvOf [⟨"A", 1⟩, ⟨"B", -1⟩] "B" = -1 := by decide
    norm_num [totalMarketValue, hk, ha, hb]
  exact ⟨h, C7_zero_total_mv_empty (fun x => x) _ _ [] h⟩

/-- C8: insufficient upstream data — fewer than two aligned return
points, zero total market value, or an empty price matrix (no kept
columns or no index dates) — yields the empty dict; and every result of
the metrics computation is either the empty dict or carries exactly the
eight metric keys together, so partial metrics are never emitted. -/
theorem C8_all_or_nothing (sq : ℚ → ℚ) (positions : List Position)
    (bars : Bars) (spy : List (ℤ × ℚ)) :
    ((alignedPairs positions bars spy).length < 2 ∨
      totalMarketValue positions bars = 0 ∨
      keptSymbols positions bars = [] ∨ allDates positions bars = [] →
      calculateAdvancedMetrics sq positions bars spy = []) ∧
    (calculateAdvancedMetrics sq positions bars spy = [] ∨
      (calculateAdvancedMetrics sq positions bars spy).map Prod.fst =
        metricKeys) := by
  constructor
  · intro hins
    unfold calculateAdvancedMetrics
    split_ifs with h1 h2 h3 h4 <;> try rfl
    exfalso
    rcases hins with h | h | h | h
    · exact h4 (Or.inr h)
    · exact h3 h
    · exact h2 (Or.inl h)
    · exact h2 (Or.inr h)
  · unfold calculateAdvancedMetrics
    split_ifs <;> simp [metricKeys]

/-- Witness for C8: a position whose symbol has no bars at all leaves no
kept columns, and the result is the empty dict. -/
theorem C8_all_or_nothing_witness :
    keptSymbols [⟨"A", 1⟩] [] = [] ∧
    calculateAdvancedMetrics (fun x => x) [⟨"A", 1⟩] [] [] = [] :=
  ⟨rfl, (C8_all_or_nothing (fun x => x) [⟨"A", 1⟩] [] []).1
    (Or.inr (Or.inr (Or.inl rfl)))⟩

/-- C9: a symbol of interest with no price observations contributes no
column to the aligned matrix (general first conjunct), and in the
scenario of two symbols with disjoint date coverage plus a third symbol
with no data, the kept columns are exactly the first two, the matrix
index is exactly the union of their observed dates, and every index date
is covered after forward-fill by at least one of the two kept columns. -/
theorem C9_no_data_symbol_dropped (bars : Bars) (s1 s2 s3 : String)
    (m1 m2 m3 : ℚ)
    (h12 : s1 ≠ s2) (h13 : s1 ≠ s3) (h23 : s2 ≠ s3)
    (h1 : barsGet bars s1 ≠ []) (h2 : barsGet bars s2 ≠ [])
    (h3 : barsGet bars s3 = [])
    (_hdisj : ∀ d, d ∈ datesOf (barsGet bars s1) →
      d ∉ datesOf (barsGet bars s2)) :
    (∀ (ps : List Position) (bs : Bars) (s : String),
        barsGet bs s = [] → s ∉ keptSymbols ps bs) ∧
    keptSymbols [⟨s1, m1⟩, ⟨s2, m2⟩, ⟨s3, m3⟩] bars = [s1, s2] ∧
    (∀ d, d ∈ allDates [⟨s1, m1⟩, ⟨s2, m2⟩, ⟨s3, m3⟩] bars ↔
      (d ∈ datesOf (barsGet bars s1) ∨ d ∈ datesOf (barsGet bars s2))) ∧
    (∀ d, d ∈ allDates [⟨s1, m1⟩, ⟨s2, m2⟩, ⟨s3, m3⟩] bars →
      ((ffillAt (barsGet bars s1) d).isSome ∨
       (ffillAt (barsGet bars s2) d).isSome)) := by
  have hsym : symbolsOf [⟨s1, m1⟩, ⟨s2, m2⟩, ⟨s3, m3⟩] = [s1, s2, s3] := by
    simp only [symbolsOf, List.map]
    exact dedupFirst_triple s1 s2 s3 h12 h13 h23
  have hgen : ∀ (ps : List Position) (bs : Bars) (s : String),
      barsGet bs s = [] → s ∉ keptSymbols ps bs := by
    intro ps bs s hs hmem
    have hf := (List.mem_filter.mp hmem).2
    rw [hs] at hf
    simp at hf
  have hdates : ∀ d, d ∈ allDates [⟨s1, m1⟩, ⟨s2, m2⟩, ⟨s3, m3⟩] bars ↔
      (d ∈ datesOf (barsGet bars s1) ∨ d ∈ datesOf (barsGet bars s2)) := by
    intro d
    rw [mem_allDates]
    simp [hsym, h3, datesOf]
  have e1 : (barsGet bars s1).isEmpty = false := by
    cases hx : barsGet bars s1 with
    | nil => exact absurd hx h1
    | cons a l => rfl
  have e2 : (barsGet bars s2).isEmpty = false := by
    cases hx : barsGet bars s2 with
    | nil => exact absurd hx h2
    | cons a l => rfl
  have e3 : (barsGet bars s3).isEmpty = true := by rw [h3]; rfl
  refine ⟨hgen, ?_, hdates, ?_⟩
  · rw [keptSymbols, hsym]
    simp [List.filter_cons, e1, e2, e3]
  · intro d hd
    rcases (hdates d).mp hd with h | h
    · exact Or.inl (ffillAt_isSome_of_mem _ d d h le_rfl)
    · exact Or.inr (ffillAt_isSome_of_mem _ d d h le_rfl)

/-- Witness for C9 at three concrete symbols: A observed only on day 1, B
observed only on day 2 (disjoint coverage), C with no data; C is dropped
and the kept columns are exactly A and B. -/
theorem C9_no_data_symbol_dropped_witness :
    barsGet [("A", [((1 : ℤ), (10 : ℚ))]), ("B", [(2, 20)]), ("C", [])]
      "C" = [] ∧
    keptSymbols [⟨"A", 1⟩, ⟨"B", 1⟩, ⟨"C", 1⟩]
      [("A", [(1, 10)]), ("B", [(2, 20)]), ("C", [])] = ["A", "B"] := by
  refine ⟨rfl, ?_⟩
  exact (C9_no_data_symbol_dropped
    [("A", [(1, 10)]), ("B", [(2, 20)]), ("C", [])] "A" "B" "C"
    1 1 1 (by decide) (by decide) (by decide)
    (by simp [barsGet, List.lookup])
    (by simp [barsGet, List.lookup])
    rfl
    (by intro d hd; simp [barsGet, List.lookup, datesOf] at hd ⊢; omega)).2.1

end Alpaca
